import Mathlib

/-!
Shallow embedding of `src/app/models/card.py` (the `Card` pydantic model
with ELO-style rating logic) and proofs of the specified properties.

Modelling conventions:
* Python `float` arithmetic is modelled by exact real arithmetic (`ℝ`),
  matching the spec's "exact real arithmetic" / "within floating tolerance"
  reading of the numeric claims.
* `datetime.utcnow()` is a side effect; each mutating method takes the
  current time as an explicit parameter (an abstract `ℕ` instant).
* Mutation of `self` becomes a function `Card → ... → Card` returning the
  updated record; purity of `calculate_win_probability` and
  `get_ranking_score` is reflected by their types (`Card → ... → ℝ`).
-/

/-- The `Card` model: core fields, swipe-interaction counters and
ELO ranking state, exactly the fields declared in `card.py`. -/
structure Card where
  id : String
  title : String
  created_at : ℕ
  updated_at : ℕ
  likes_count : ℕ
  dislikes_count : ℕ
  total_interactions : ℕ
  last_interaction_at : Option ℕ
  elo_rating : ℝ
  elo_k_factor : ℝ
  confidence_score : ℝ

namespace Card

/-- Constructor with the field defaults of `card.py` (`likes_count = 0`,
`dislikes_count = 0`, `total_interactions = 0`, `last_interaction_at = None`,
`confidence_score = 0.0`), with the optional overrides for `elo_rating`
(default `1500.0`) and `elo_k_factor` (default `32.0`) passed explicitly. -/
def mkCard (id title : String) (elo k : ℝ) (now : ℕ) : Card :=
  { id := id
    title := title
    created_at := now
    updated_at := now
    likes_count := 0
    dislikes_count := 0
    total_interactions := 0
    last_interaction_at := none
    elo_rating := elo
    elo_k_factor := k
    confidence_score := 0 }

/-- A freshly constructed card with all defaults (`elo_rating = 1500.0`,
`elo_k_factor = 32.0`). -/
def mkCardDefault (id title : String) (now : ℕ) : Card :=
  mkCard id title 1500 32 now

/-- `Card.update_interaction_counts`: increments `likes_count` or
`dislikes_count` according to `is_like`, increments `total_interactions`,
and stamps `last_interaction_at` and `updated_at` with the current time. -/
def update_interaction_counts (c : Card) (is_like : Bool) (now : ℕ) : Card :=
  { c with
    likes_count := if is_like then c.likes_count + 1 else c.likes_count
    dislikes_count := if is_like then c.dislikes_count else c.dislikes_count + 1
    total_interactions := c.total_interactions + 1
    last_interaction_at := some now
    updated_at := now }

/-- `Card.calculate_win_probability`: the logistic ELO formula
`1.0 / (1.0 + 10.0 ** ((opponent_rating - self.elo_rating) / 400.0))`. -/
noncomputable def calculate_win_probability (c : Card) (opponent_rating : ℝ) : ℝ :=
  1 / (1 + (10 : ℝ) ^ ((opponent_rating - c.elo_rating) / 400))

/-- `Card.update_elo_rating`: adds `k_factor * (actual - expected)` to
`elo_rating`, recomputes `confidence_score = min(1.0, total_interactions / 100.0)`
and stamps `updated_at`. -/
noncomputable def update_elo_rating (c : Card) (opponent_rating : ℝ) (won : Bool)
    (now : ℕ) : Card :=
  let expected_score := c.calculate_win_probability opponent_rating
  let actual_score : ℝ := if won then 1 else 0
  { c with
    elo_rating := c.elo_rating + c.elo_k_factor * (actual_score - expected_score)
    confidence_score := min 1 ((c.total_interactions : ℝ) / 100)
    updated_at := now }

/-- `Card.get_ranking_score`: `elo_rating * confidence_score`. -/
noncomputable def get_ranking_score (c : Card) : ℝ :=
  c.elo_rating * c.confidence_score

/-- One abstract mutating operation on a card: either a recorded swipe
(`update_interaction_counts`) or a rating update (`update_elo_rating`). -/
inductive Op where
  | interact (is_like : Bool) (now : ℕ)
  | rate (opponent_rating : ℝ) (won : Bool) (now : ℕ)

/-- Apply one operation to a card. -/
noncomputable def applyOp (c : Card) : Op → Card
  | .interact b now => c.update_interaction_counts b now
  | .rate opp won now => c.update_elo_rating opp won now

/-- Apply a finite sequence of operations, left to right. -/
noncomputable def applyOps (c : Card) (ops : List Op) : Card :=
  ops.foldl applyOp c

end Card

section Helpers

open Card

lemma winProb_pos (c : Card) (r : ℝ) : 0 < c.calculate_win_probability r := by
  unfold calculate_win_probability
  have h : (0 : ℝ) < (10 : ℝ) ^ ((r - c.elo_rating) / 400) :=
    Real.rpow_pos_of_pos (by norm_num) _
  positivity

lemma winProb_lt_one (c : Card) (r : ℝ) : c.calculate_win_probability r < 1 := by
  unfold calculate_win_probability
  have h : (0 : ℝ) < (10 : ℝ) ^ ((r - c.elo_rating) / 400) :=
    Real.rpow_pos_of_pos (by norm_num) _
  rw [div_lt_one (by linarith)]
  linarith

lemma winProb_self (c : Card) : c.calculate_win_probability c.elo_rating = 1 / 2 := by
  unfold calculate_win_probability
  have h : (c.elo_rating - c.elo_rating) / 400 = 0 := by ring
  rw [h, Real.rpow_zero]
  norm_num

lemma winProb_add (a b : Card) :
    a.calculate_win_probability b.elo_rating + b.calculate_win_probability a.elo_rating
      = 1 := by
  unfold calculate_win_probability
  have h : (a.elo_rating - b.elo_rating) / 400
      = -((b.elo_rating - a.elo_rating) / 400) := by ring
  rw [h, Real.rpow_neg (by norm_num : (0 : ℝ) ≤ 10)]
  have hx0 : 0 < (10 : ℝ) ^ ((b.elo_rating - a.elo_rating) / 400) :=
    Real.rpow_pos_of_pos (by norm_num) _
  set x : ℝ := (10 : ℝ) ^ ((b.elo_rating - a.elo_rating) / 400)
  have h2 : x ≠ 0 := ne_of_gt hx0
  have h1 : (1 : ℝ) + x ≠ 0 := by positivity
  field_simp
  ring

lemma winProb_strictAnti (c : Card) (r1 r2 : ℝ) (h : r1 < r2) :
    c.calculate_win_probability r2 < c.calculate_win_probability r1 := by
  unfold calculate_win_probability
  have hx1 : (0 : ℝ) < (10 : ℝ) ^ ((r1 - c.elo_rating) / 400) :=
    Real.rpow_pos_of_pos (by norm_num) _
  have key : (10 : ℝ) ^ ((r1 - c.elo_rating) / 400)
      < (10 : ℝ) ^ ((r2 - c.elo_rating) / 400) := by
    rw [Real.rpow_lt_rpow_left_iff (by norm_num : (1 : ℝ) < 10)]
    linarith
  exact one_div_lt_one_div_of_lt (by linarith) (by linarith)

lemma update_elo_elo (c : Card) (opp : ℝ) (won : Bool) (now : ℕ) :
    (c.update_elo_rating opp won now).elo_rating
      = c.elo_rating
        + c.elo_k_factor * ((if won then (1 : ℝ) else 0)
            - c.calculate_win_probability opp) := rfl

lemma update_elo_conf (c : Card) (opp : ℝ) (won : Bool) (now : ℕ) :
    (c.update_elo_rating opp won now).confidence_score
      = min 1 ((c.total_interactions : ℝ) / 100) := rfl

lemma foldl_interact_counts (init : Card) (ops : List (Bool × ℕ)) :
    (ops.foldl (fun c p => c.update_interaction_counts p.1 p.2) init).total_interactions
        = init.total_interactions + ops.length
      ∧ (ops.foldl (fun c p => c.update_interaction_counts p.1 p.2) init).likes_count
          + (ops.foldl (fun c p => c.update_interaction_counts p.1 p.2) init).dislikes_count
        = init.likes_count + init.dislikes_count + ops.length := by
  induction ops generalizing init with
  | nil => simp
  | cons p ops ih =>
    obtain ⟨ih1, ih2⟩ := ih (init.update_interaction_counts p.1 p.2)
    refine ⟨?_, ?_⟩
    · rw [List.foldl_cons, ih1]
      simp [update_interaction_counts]
      ring
    · rw [List.foldl_cons, ih2]
      cases hb : p.1 <;> simp [update_interaction_counts, hb] <;> ring

end Helpers

open Card

/-- Claim C2: `update_elo_rating(opp, won)` sets `elo_rating` to
`r + k * (actual - expected)` with `expected = calculate_win_probability opp`
and `actual = 1.0` if won else `0.0`; concretely a card at 1500.0 with
k-factor 32.0 that beats a 1500.0 opponent ends at exactly 1516.0, and one
that loses ends at exactly 1484.0. -/
theorem C2_elo_update_formula (c : Card) (opp : ℝ) (won : Bool) (now : ℕ) :
    (c.update_elo_rating opp won now).elo_rating
        = c.elo_rating
          + c.elo_k_factor * ((if won then (1 : ℝ) else 0)
              - c.calculate_win_probability opp)
      ∧ (c.elo_rating = 1500 → c.elo_k_factor = 32 →
          (c.update_elo_rating 1500 true now).elo_rating = 1516
            ∧ (c.update_elo_rating 1500 false now).elo_rating = 1484) := by
  refine ⟨update_elo_elo c opp won now, fun he hk => ?_⟩
  have hp : c.calculate_win_probability 1500 = 1 / 2 := he ▸ winProb_self c
  constructor
  · rw [update_elo_elo, he, hk, hp]; norm_num
  · rw [update_elo_elo, he, hk, hp]; norm_num

/-- Witness for C2: the default card (rating 1500.0, k-factor 32.0) that
beats a 1500.0 opponent ends at exactly 1516.0. -/
theorem C2_elo_update_formula_witness :
    (mkCardDefault "a" "t" 0).elo_rating = 1500
      ∧ (mkCardDefault "a" "t" 0).elo_k_factor = 32
      ∧ ((mkCardDefault "a" "t" 0).update_elo_rating 1500 true 0).elo_rating = 1516
      ∧ ((mkCardDefault "a" "t" 0).update_elo_rating 1500 false 0).elo_rating = 1484 :=
  ⟨rfl, rfl,
    ((C2_elo_update_formula (mkCardDefault "a" "t" 0) 1500 true 0).2 rfl rfl).1,
    ((C2_elo_update_formula (mkCardDefault "a" "t" 0) 1500 true 0).2 rfl rfl).2⟩

/-- Claim C3: `calculate_win_probability opp` returns exactly
`1 / (1 + 10 ^ ((opp - R) / 400))`, is pure (it is a function `Card → ℝ → ℝ`
in this embedding, so it can mutate nothing), and its result lies strictly
between 0 and 1. -/
theorem C3_win_probability_formula_and_range (c : Card) (opp : ℝ) :
    c.calculate_win_probability opp
        = 1 / (1 + (10 : ℝ) ^ ((opp - c.elo_rating) / 400))
      ∧ 0 < c.calculate_win_probability opp
      ∧ c.calculate_win_probability opp < 1 :=
  ⟨rfl, winProb_pos c opp, winProb_lt_one c opp⟩

/-- Claim C4: reciprocity — for cards A and B,
`A.calculate_win_probability B.elo_rating + B.calculate_win_probability A.elo_rating`
equals 1 exactly (over the real-number model of the float arithmetic). -/
theorem C4_reciprocity (a b : Card) :
    a.calculate_win_probability b.elo_rating
        + b.calculate_win_probability a.elo_rating = 1 :=
  winProb_add a b

/-- Claim C6: for a fixed card, `calculate_win_probability` is strictly
decreasing in the opponent rating, and at the card's own rating it returns
exactly 0.5. -/
theorem C6_strict_anti_and_self_half (c : Card) (r1 r2 : ℝ) (h : r1 < r2) :
    c.calculate_win_probability r2 < c.calculate_win_probability r1
      ∧ c.calculate_win_probability c.elo_rating = 1 / 2 :=
  ⟨winProb_strictAnti c r1 r2 h, winProb_self c⟩

/-- Witness for C6: for the default card, the win probability against a
1600-rated opponent is below the one against a 1400-rated opponent, and
against its own rating it is 0.5. -/
theorem C6_strict_anti_and_self_half_witness :
    (1400 : ℝ) < 1600
      ∧ ((mkCardDefault "a" "t" 0).calculate_win_probability 1600
            < (mkCardDefault "a" "t" 0).calculate_win_probability 1400
          ∧ (mkCardDefault "a" "t" 0).calculate_win_probability
              (mkCardDefault "a" "t" 0).elo_rating = 1 / 2) :=
  ⟨by norm_num,
    C6_strict_anti_and_self_half (mkCardDefault "a" "t" 0) 1400 1600 (by norm_num)⟩

/-- Claim C7: starting from a freshly constructed card, any sequence of N
calls to `update_interaction_counts` (any mix of likes and any timestamps)
yields `total_interactions = N` and `likes_count + dislikes_count = N`; and
the equation `likes_count + dislikes_count = total_interactions` is
preserved by every operation (interaction recording or rating update). -/
theorem C7_counter_invariant (id title : String) (elo k : ℝ) (t : ℕ)
    (ops : List (Bool × ℕ)) (c : Card) (op : Card.Op)
    (h : c.likes_count + c.dislikes_count = c.total_interactions) :
    (ops.foldl (fun c p => c.update_interaction_counts p.1 p.2)
        (mkCard id title elo k t)).total_interactions = ops.length
      ∧ (ops.foldl (fun c p => c.update_interaction_counts p.1 p.2)
            (mkCard id title elo k t)).likes_count
          + (ops.foldl (fun c p => c.update_interaction_counts p.1 p.2)
              (mkCard id title elo k t)).dislikes_count = ops.length
      ∧ (c.applyOp op).likes_count + (c.applyOp op).dislikes_count
          = (c.applyOp op).total_interactions := by
  obtain ⟨h1, h2⟩ := foldl_interact_counts (mkCard id title elo k t) ops
  refine ⟨by simpa [mkCard] using h1, by simpa [mkCard] using h2, ?_⟩
  cases op with
  | interact b now => cases b <;> simp [applyOp, update_interaction_counts] <;> omega
  | rate opp won now => simpa [applyOp, update_elo_rating] using h

/-- Witness for C7: two recorded interactions on a fresh default card give
both counters summing to 2, and one further like preserves the equation. -/
theorem C7_counter_invariant_witness :
    ((mkCardDefault "w" "t" 0).likes_count + (mkCardDefault "w" "t" 0).dislikes_count
        = (mkCardDefault "w" "t" 0).total_interactions)
      ∧ (([((true : Bool), (1 : ℕ)), ((false : Bool), (2 : ℕ))].foldl
              (fun c p => c.update_interaction_counts p.1 p.2)
              (mkCard "w" "t" 1500 32 0)).total_interactions
            = [((true : Bool), (1 : ℕ)), ((false : Bool), (2 : ℕ))].length
          ∧ ([((true : Bool), (1 : ℕ)), ((false : Bool), (2 : ℕ))].foldl
                (fun c p => c.update_interaction_counts p.1 p.2)
                (mkCard "w" "t" 1500 32 0)).likes_count
              + ([((true : Bool), (1 : ℕ)), ((false : Bool), (2 : ℕ))].foldl
                  (fun c p => c.update_interaction_counts p.1 p.2)
                  (mkCard "w" "t" 1500 32 0)).dislikes_count
            = [((true : Bool), (1 : ℕ)), ((false : Bool), (2 : ℕ))].length
          ∧ ((mkCardDefault "w" "t" 0).applyOp (.interact true 3)).likes_count
              + ((mkCardDefault "w" "t" 0).applyOp (.interact true 3)).dislikes_count
            = ((mkCardDefault "w" "t" 0).applyOp (.interact true 3)).total_interactions) :=
  ⟨rfl, C7_counter_invariant "w" "t" 1500 32 0
    [((true : Bool), (1 : ℕ)), ((false : Bool), (2 : ℕ))]
    (mkCardDefault "w" "t" 0) (.interact true 3) rfl⟩

/-- Claim C8: `get_ranking_score` returns exactly
`elo_rating * confidence_score` (it is pure by its type in this embedding),
and a freshly constructed card has ranking score 0 regardless of the
`elo_rating` it was constructed with. -/
theorem C8_ranking_score (c : Card) (id title : String) (elo k : ℝ) (now : ℕ) :
    c.get_ranking_score = c.elo_rating * c.confidence_score
      ∧ (mkCard id title elo k now).get_ranking_score = 0 :=
  ⟨rfl, mul_zero elo⟩

/-- Claim C9: `update_interaction_counts` changes only the counters and
timestamps it names and leaves `elo_rating`, `elo_k_factor`,
`confidence_score`, `id`, `title` and `created_at` unchanged. -/
theorem C9_interact_frame (c : Card) (b : Bool) (now : ℕ) :
    ((c.update_interaction_counts b now).elo_rating = c.elo_rating)
      ∧ ((c.update_interaction_counts b now).elo_k_factor = c.elo_k_factor)
      ∧ ((c.update_interaction_counts b now).confidence_score = c.confidence_score)
      ∧ ((c.update_interaction_counts b now).id = c.id)
      ∧ ((c.update_interaction_counts b now).title = c.title)
      ∧ ((c.update_interaction_counts b now).created_at = c.created_at)
      ∧ ((c.update_interaction_counts b now).likes_count
          = if b then c.likes_count + 1 else c.likes_count)
      ∧ ((c.update_interaction_counts b now).dislikes_count
          = if b then c.dislikes_count else c.dislikes_count + 1)
      ∧ ((c.update_interaction_counts b now).total_interactions
          = c.total_interactions + 1)
      ∧ ((c.update_interaction_counts b now).last_interaction_at = some now)
      ∧ ((c.update_interaction_counts b now).updated_at = now) :=
  ⟨rfl, rfl, rfl, rfl, rfl, rfl, rfl, rfl, rfl, rfl, rfl⟩

/-- Counterexample to claim C1 as stated: a single call to
`update_interaction_counts` on a fresh card leaves `confidence_score` at 0
while `total_interactions` becomes 1, so `confidence_score` differs from
`min(1, total_interactions / 100) = 1/100`; the invariant does not hold
after arbitrary operation sequences. -/
theorem C1_counterexample :
    ((mkCardDefault "a" "t" 0).update_interaction_counts true 1).confidence_score
      ≠ min 1
          ((((mkCardDefault "a" "t" 0).update_interaction_counts true
              1).total_interactions : ℝ) / 100) := by
  have h1 : ((mkCardDefault "a" "t" 0).update_interaction_counts
      true 1).confidence_score = 0 := rfl
  have h2 : ((mkCardDefault "a" "t" 0).update_interaction_counts
      true 1).total_interactions = 1 := rfl
  rw [h1, h2]
  norm_num [min_eq_right]

/-- Claim C1, amended: `confidence_score` is recomputed only by
`update_elo_rating` (`update_interaction_counts` leaves it unchanged), so
after any sequence of recorded interactions followed by a call to
`update_elo_rating`, `confidence_score = min(1, total_interactions / 100)`;
in particular it is 0.5 when 50 interactions were recorded before the
rating update and 1.0 when 150 were. -/
theorem C1_amended_confidence (id title : String) (elo k : ℝ) (t : ℕ)
    (ops : List (Bool × ℕ)) (opp : ℝ) (won : Bool) (now : ℕ) :
    ((ops.foldl (fun c p => c.update_interaction_counts p.1 p.2)
          (mkCard id title elo k t)).update_elo_rating opp won now).confidence_score
        = min 1 ((ops.length : ℝ) / 100)
      ∧ (ops.length = 50 →
          ((ops.foldl (fun c p => c.update_interaction_counts p.1 p.2)
              (mkCard id title elo k t)).update_elo_rating opp won
                now).confidence_score = 1 / 2)
      ∧ (ops.length = 150 →
          ((ops.foldl (fun c p => c.update_interaction_counts p.1 p.2)
              (mkCard id title elo k t)).update_elo_rating opp won
                now).confidence_score = 1) := by
  have htot := (foldl_interact_counts (mkCard id title elo k t) ops).1
  have h0 : (mkCard id title elo k t).total_interactions = 0 := rfl
  rw [h0, Nat.zero_add] at htot
  refine ⟨?_, fun h => ?_, fun h => ?_⟩
  · rw [update_elo_conf, htot]
  · rw [update_elo_conf, htot, h]; norm_num [min_eq_right]
  · rw [update_elo_conf, htot, h]; norm_num [min_eq_left]

/-- Witness for C1 (amended): 50 recorded likes on a fresh card followed by
one rating update leave `confidence_score = 0.5`. -/
theorem C1_amended_confidence_witness :
    (List.replicate 50 ((true : Bool), (0 : ℕ))).length = 50
      ∧ (((List.replicate 50 ((true : Bool), (0 : ℕ))).foldl
            (fun c p => c.update_interaction_counts p.1 p.2)
            (mkCard "a" "t" 1500 32 0)).update_elo_rating 1500 true
              0).confidence_score = 1 / 2 :=
  ⟨by simp,
    (C1_amended_confidence "a" "t" 1500 32 0
      (List.replicate 50 ((true : Bool), (0 : ℕ))) 1500 true 0).2.1 (by simp)⟩

/-- Counterexample to claim C5 as stated: a card constructed with
`elo_k_factor = 0` (the constructor allows overriding the k-factor) has
expected score 0.5 against an equal-rated opponent — not equal to the
actual score 1 — yet winning does not strictly increase its rating. -/
theorem C5_counterexample :
    (mkCard "a" "t" 1500 0 0).calculate_win_probability 1500 ≠ 1
      ∧ ¬ ((mkCard "a" "t" 1500 0 0).elo_rating
          < ((mkCard "a" "t" 1500 0 0).update_elo_rating 1500 true 0).elo_rating) := by
  have hp : (mkCard "a" "t" 1500 0 0).calculate_win_probability 1500 = 1 / 2 :=
    winProb_self (mkCard "a" "t" 1500 0 0)
  refine ⟨by rw [hp]; norm_num, ?_⟩
  rw [update_elo_elo, hp]
  have hk : (mkCard "a" "t" 1500 0 0).elo_k_factor = 0 := rfl
  rw [hk]
  norm_num

/-- Claim C5, amended: for every card whose `elo_k_factor` is positive (the
default is 32.0), `update_elo_rating` with `won = true` strictly increases
`elo_rating` and with `won = false` strictly decreases it; over exact real
arithmetic the expected score lies strictly between 0 and 1, so it never
equals the actual score and the exception clause is vacuous. -/
theorem C5_amended_strict_move (c : Card) (opp : ℝ) (now : ℕ)
    (hk : 0 < c.elo_k_factor) :
    c.elo_rating < (c.update_elo_rating opp true now).elo_rating
      ∧ (c.update_elo_rating opp false now).elo_rating < c.elo_rating := by
  have h1 := winProb_pos c opp
  have h2 := winProb_lt_one c opp
  rw [update_elo_elo, update_elo_elo]
  constructor
  · have := mul_pos hk (sub_pos.mpr h2)
    simp only [if_pos]
    nlinarith
  · have h3 := mul_pos hk h1
    have h4 : (if (false : Bool) = true then (1 : ℝ) else 0) = 0 := by norm_num
    rw [h4]
    nlinarith

/-- Witness for C5 (amended): the default card (k-factor 32 > 0) strictly
gains rating from a win over a 1400-rated opponent and strictly loses
rating from a loss. -/
theorem C5_amended_strict_move_witness :
    (0 : ℝ) < (mkCardDefault "a" "t" 0).elo_k_factor
      ∧ ((mkCardDefault "a" "t" 0).elo_rating
            < ((mkCardDefault "a" "t" 0).update_elo_rating 1400 true 0).elo_rating
          ∧ ((mkCardDefault "a" "t" 0).update_elo_rating 1400 false 0).elo_rating
            < (mkCardDefault "a" "t" 0).elo_rating) :=
  ⟨by norm_num [mkCardDefault, mkCard],
    C5_amended_strict_move (mkCardDefault "a" "t" 0) 1400 0
      (by norm_num [mkCardDefault, mkCard])⟩

/-- Claim C10: for two cards with the same k-factor, updating both with the
pre-update ratings as opponent arguments and opposite outcomes conserves
the total rating: the two post-update ratings sum to the two pre-update
ratings (over exact real arithmetic). -/
theorem C10_pairwise_conservation (a b : Card) (won : Bool) (n1 n2 : ℕ)
    (hk : a.elo_k_factor = b.elo_k_factor) :
    (a.update_elo_rating b.elo_rating won n1).elo_rating
        + (b.update_elo_rating a.elo_rating (!won) n2).elo_rating
      = a.elo_rating + b.elo_rating := by
  have hb : b.calculate_win_probability a.elo_rating
      = 1 - a.calculate_win_probability b.elo_rating := by
    linarith [winProb_add a b]
  rw [update_elo_elo, update_elo_elo, hk, hb]
  cases won <;> simp <;> ring

/-- Witness for C10: a 1500-rated and a 1600-rated card with the common
k-factor 32 conserve their rating sum across a paired update. -/
theorem C10_pairwise_conservation_witness :
    (mkCardDefault "a" "t" 0).elo_k_factor = (mkCard "b" "u" 1600 32 0).elo_k_factor
      ∧ ((mkCardDefault "a" "t" 0).update_elo_rating
              (mkCard "b" "u" 1600 32 0).elo_rating true 0).elo_rating
          + ((mkCard "b" "u" 1600 32 0).update_elo_rating
              (mkCardDefault "a" "t" 0).elo_rating (!true) 0).elo_rating
        = (mkCardDefault "a" "t" 0).elo_rating + (mkCard "b" "u" 1600 32 0).elo_rating :=
  ⟨rfl, C10_pairwise_conservation (mkCardDefault "a" "t" 0)
    (mkCard "b" "u" 1600 32 0) true 0 0 rfl⟩
